import Mathlib

/-!
Verification development for the SlimShady repository's sun-ray / ripple
occlusion engine (src/ripple.js) and the map loader (src/map.js).

The geometry routines are shallowly embedded over the reals: JavaScript
numbers become `ℝ`, `null` returns become `Option ℝ`, and the truthiness
guard `if (distance && distance < m)` becomes `d ≠ 0 ∧ d < m` on the
payload of a `some`.
-/

open Classical

namespace SlimShady

/-- A rectangle obstacle (a building footprint): origin (x, y), width, height. -/
structure Rect where
  x : ℝ
  y : ℝ
  width : ℝ
  height : ℝ

/-- A circle obstacle (a tree canopy): center (x, y) and radius. -/
structure Circle where
  x : ℝ
  y : ℝ
  radius : ℝ

/-- The obstacle model of src/ripple.js: `type === 'building'` carries a
rectangle, `type === 'tree'` a circle. -/
inductive Obstacle where
  | building (r : Rect)
  | tree (c : Circle)

/-- Embedding of `SunRay.distanceToRectangle` (src/ripple.js:477-507) and the
textually identical `Ripple.distanceToRectangle` (src/ripple.js:333-363),
parametrized by the origin (`sunX`/`sunY`, respectively `this.x`/`this.y`)
and by the initial `tMax` (`this.length`, respectively `this.maxRadius`).
A slab is applied only when `Math.abs(d) > 0.001`. -/
noncomputable def distanceToRectangle (ox oy angle maxLen : ℝ) (rect : Rect) : Option ℝ :=
  let dx := Real.cos angle
  let dy := Real.sin angle
  let left := rect.x
  let right := rect.x + rect.width
  let top := rect.y
  let bottom := rect.y + rect.height
  let tMinX : ℝ := if 0.001 < |dx| then
      max 0 (min ((left - ox) / dx) ((right - ox) / dx)) else 0
  let tMaxX : ℝ := if 0.001 < |dx| then
      min maxLen (max ((left - ox) / dx) ((right - ox) / dx)) else maxLen
  let tMin : ℝ := if 0.001 < |dy| then
      max tMinX (min ((top - oy) / dy) ((bottom - oy) / dy)) else tMinX
  let tMax : ℝ := if 0.001 < |dy| then
      min tMaxX (max ((top - oy) / dy) ((bottom - oy) / dy)) else tMaxX
  if tMin ≤ tMax ∧ 0 < tMin then some tMin else none

/-- Embedding of `SunRay.distanceToCircle` (src/ripple.js:509-527) and the
textually identical `Ripple.distanceToCircle` (src/ripple.js:365-383).
Note the source computes `cx = circle.x - origin.x` (center relative to the
origin) but keeps `b = 2*(dx*cx + dy*cy)` and the root `(-b - sqrt(disc))/(2a)`,
the formula for the origin relative to the center. -/
noncomputable def distanceToCircle (ox oy angle : ℝ) (circle : Circle) : Option ℝ :=
  let dx := Real.cos angle
  let dy := Real.sin angle
  let cx := circle.x - ox
  let cy := circle.y - oy
  let a := dx * dx + dy * dy
  let b := 2 * (dx * cx + dy * cy)
  let c := cx * cx + cy * cy - circle.radius * circle.radius
  let discriminant := b * b - 4 * a * c
  if 0 ≤ discriminant then
    let t1 := (-b - Real.sqrt discriminant) / (2 * a)
    if 0 < t1 then some t1 else none
  else none

/-- The per-obstacle dispatch shared by `SunRay.checkObstacles` and
`Ripple.findObstacleDistance`: buildings go to the rectangle routine,
trees to the circle routine. -/
noncomputable def obstacleDistance (ox oy angle maxLen : ℝ) : Obstacle → Option ℝ
  | .building r => distanceToRectangle ox oy angle maxLen r
  | .tree c => distanceToCircle ox oy angle c

/-- The two derived fields `SunRay.checkObstacles` recomputes. -/
structure RayHit where
  hitDistance : ℝ
  blocked : Prop

/-- One loop iteration of `SunRay.checkObstacles` (src/ripple.js:461-474):
`if (distance && distance < this.hitDistance) { hitDistance = distance; blocked = true }`. -/
noncomputable def checkStep (ox oy angle maxLen : ℝ) (s : RayHit) (ob : Obstacle) : RayHit :=
  match obstacleDistance ox oy angle maxLen ob with
  | none => s
  | some d => if d ≠ 0 ∧ d < s.hitDistance then ⟨d, True⟩ else s

/-- Embedding of `SunRay.checkObstacles` (src/ripple.js:457-475): reset to
`blocked = false`, `hitDistance = length`, then fold over the obstacles. -/
noncomputable def checkObstacles (ox oy angle len : ℝ) (obs : List Obstacle) : RayHit :=
  obs.foldl (checkStep ox oy angle len) ⟨len, False⟩

/-- One loop iteration of `Ripple.findObstacleDistance` (src/ripple.js:316-328):
`if (distance && distance < minDistance) { minDistance = distance * 0.9 }`. -/
noncomputable def findStep (ox oy angle maxR : ℝ) (minD : ℝ) (ob : Obstacle) : ℝ :=
  match obstacleDistance ox oy angle maxR ob with
  | none => minD
  | some d => if d ≠ 0 ∧ d < minD then d * 0.9 else minD

/-- Embedding of `Ripple.findObstacleDistance` (src/ripple.js:313-331):
`minDistance` starts at `this.maxRadius` and is folded over the obstacles. -/
noncomputable def findObstacleDistance (ox oy angle maxR : ℝ) (obs : List Obstacle) : ℝ :=
  obs.foldl (findStep ox oy angle maxR) maxR

/-- The point a distance `t` along the ray of angle `angle` from `(ox, oy)`,
as the renderer computes it (`endX = sunX + Math.cos(angle) * hitDistance`). -/
noncomputable def pointAt (ox oy angle t : ℝ) : ℝ × ℝ :=
  (ox + Real.cos angle * t, oy + Real.sin angle * t)

/-- Membership in the boundary of a rectangle obstacle: on a vertical edge
with the y-coordinate between top and bottom, or on a horizontal edge with
the x-coordinate between left and right. -/
def onRectBoundary (r : Rect) (p : ℝ × ℝ) : Prop :=
  ((p.1 = r.x ∨ p.1 = r.x + r.width) ∧
    min r.y (r.y + r.height) ≤ p.2 ∧ p.2 ≤ max r.y (r.y + r.height)) ∨
  ((p.2 = r.y ∨ p.2 = r.y + r.height) ∧
    min r.x (r.x + r.width) ≤ p.1 ∧ p.1 ≤ max r.x (r.x + r.width))

lemma sqrt_sixteen_hundred : Real.sqrt 1600 = 40 := by
  rw [show (1600 : ℝ) = 40 ^ 2 by norm_num]
  exact Real.sqrt_sq (by norm_num)

/-- The circle routine misses the circle ahead of the ray from the spec's
end-to-end scenario: both roots of the source's quadratic are negative. -/
lemma circle_ahead_eval :
    distanceToCircle 200 0 (Real.pi / 2) ⟨200, 200, 20⟩ = none := by
  unfold distanceToCircle
  simp only [Real.cos_pi_div_two, Real.sin_pi_div_two]
  norm_num
  intro h
  nlinarith [Real.sqrt_nonneg (1600 : ℝ)]

/-- The same circle placed behind the ray is reported at distance 180. -/
lemma circle_behind_eval :
    distanceToCircle 200 0 (-(Real.pi / 2)) ⟨200, 200, 20⟩ = some 180 := by
  unfold distanceToCircle
  simp only [Real.cos_neg, Real.sin_neg, Real.cos_pi_div_two, Real.sin_pi_div_two]
  norm_num
  rw [sqrt_sixteen_hundred]
  norm_num

lemma check_eval_ahead :
    checkObstacles 200 0 (Real.pi / 2) 300 [Obstacle.tree ⟨200, 200, 20⟩] = ⟨300, False⟩ := by
  simp only [checkObstacles, List.foldl_cons, List.foldl_nil, checkStep, obstacleDistance,
    circle_ahead_eval]

lemma check_eval_behind :
    checkObstacles 200 0 (-(Real.pi / 2)) 300 [Obstacle.tree ⟨200, 200, 20⟩] = ⟨180, True⟩ := by
  simp only [checkObstacles, List.foldl_cons, List.foldl_nil, checkStep, obstacleDistance,
    circle_behind_eval]
  norm_num

/-- Claim C1: the spec's end-to-end circle scenario. A circle at (200,200)
of radius 20 and a ray from the sun point (200,0) at angle π/2 should give
`hitDistance == 180`; the code instead reports no hit (`hitDistance` stays at
the full length 300 and `blocked` stays false), because `distanceToCircle`
computes the center relative to the origin yet keeps the quadratic
coefficients of the origin-relative-to-center form, so the root it tests is
the negation of the true entry distance. The last conjunct shows the true
geometry: the point 180 along the ray lies exactly on the circle. -/
theorem C1_circle_scenario_eval :
    (checkObstacles 200 0 (Real.pi / 2) 300 [Obstacle.tree ⟨200, 200, 20⟩]).hitDistance = 300 ∧
    ¬ (checkObstacles 200 0 (Real.pi / 2) 300 [Obstacle.tree ⟨200, 200, 20⟩]).blocked ∧
    ((pointAt 200 0 (Real.pi / 2) 180).1 - 200) ^ 2 +
      ((pointAt 200 0 (Real.pi / 2) 180).2 - 200) ^ 2 = 20 ^ 2 := by
  rw [check_eval_ahead]
  refine ⟨rfl, fun h => h, ?_⟩
  unfold pointAt
  simp only [Real.cos_pi_div_two, Real.sin_pi_div_two]
  norm_num

/-- Claim C3: a ray whose path crosses no obstacle should resolve to the full
length with `blocked == false`; the code violates this. The ray from (200,0)
pointing straight down (angle −π/2) never comes near the circle at (200,200)
— the last conjunct shows every point of its path stays outside the circle —
yet `checkObstacles` reports `blocked` with `hitDistance = 180`, again due to
the sign slip in `distanceToCircle`, which detects circles behind the origin. -/
theorem C3_ray_away_blocked_eval :
    (checkObstacles 200 0 (-(Real.pi / 2)) 300 [Obstacle.tree ⟨200, 200, 20⟩]).hitDistance = 180 ∧
    (checkObstacles 200 0 (-(Real.pi / 2)) 300 [Obstacle.tree ⟨200, 200, 20⟩]).blocked ∧
    ∀ t : ℝ, 0 ≤ t → t ≤ 300 →
      20 ^ 2 < ((pointAt 200 0 (-(Real.pi / 2)) t).1 - 200) ^ 2 +
        ((pointAt 200 0 (-(Real.pi / 2)) t).2 - 200) ^ 2 := by
  rw [check_eval_behind]
  refine ⟨rfl, trivial, fun t ht _ => ?_⟩
  unfold pointAt
  simp only [Real.cos_neg, Real.sin_neg, Real.cos_pi_div_two, Real.sin_pi_div_two]
  nlinarith [sq_nonneg t]

lemma check_foldl_invariant (ox oy angle maxLen len : ℝ) (obs : List Obstacle) (s : RayHit)
    (h1 : s.hitDistance ≤ len) (h2 : s.blocked ↔ s.hitDistance < len) :
    (obs.foldl (checkStep ox oy angle maxLen) s).hitDistance ≤ len ∧
    ((obs.foldl (checkStep ox oy angle maxLen) s).blocked ↔
      (obs.foldl (checkStep ox oy angle maxLen) s).hitDistance < len) := by
  induction obs generalizing s with
  | nil => exact ⟨h1, h2⟩
  | cons ob obs ih =>
    simp only [List.foldl_cons]
    rcases hob : obstacleDistance ox oy angle maxLen ob with _ | d
    · have hs : checkStep ox oy angle maxLen s ob = s := by simp [checkStep, hob]
      rw [hs]
      exact ih s h1 h2
    · by_cases hg : d ≠ 0 ∧ d < s.hitDistance
      · have hs : checkStep ox oy angle maxLen s ob = ⟨d, True⟩ := by
          simp only [checkStep, hob]
          rw [if_pos hg]
        rw [hs]
        exact ih _ (le_of_lt (lt_of_lt_of_le hg.2 h1))
          ⟨fun _ => lt_of_lt_of_le hg.2 h1, fun _ => trivial⟩
      · have hs : checkStep ox oy angle maxLen s ob = s := by
          simp only [checkStep, hob]
          rw [if_neg hg]
        rw [hs]
        exact ih s h1 h2

/-- Claim C10: after `checkObstacles`, the `blocked` flag holds exactly when
`hitDistance` dropped strictly below the ray's length: the two derived fields
can never disagree. -/
theorem C10_blocked_iff_shortened (ox oy angle len : ℝ) (obs : List Obstacle) :
    (checkObstacles ox oy angle len obs).blocked ↔
    (checkObstacles ox oy angle len obs).hitDistance < len :=
  (check_foldl_invariant ox oy angle len len obs ⟨len, False⟩ le_rfl (by simp)).2

/-- With both direction components non-negligible, both slab tests run and
`distanceToRectangle` reduces to the plain two-slab form. -/
lemma distanceToRectangle_active (ox oy θ maxLen : ℝ) (r : Rect)
    (hdx : 0.001 < |Real.cos θ|) (hdy : 0.001 < |Real.sin θ|) :
    distanceToRectangle ox oy θ maxLen r =
      if max (max 0 (min ((r.x - ox) / Real.cos θ) ((r.x + r.width - ox) / Real.cos θ)))
            (min ((r.y - oy) / Real.sin θ) ((r.y + r.height - oy) / Real.sin θ)) ≤
          min (min maxLen (max ((r.x - ox) / Real.cos θ) ((r.x + r.width - ox) / Real.cos θ)))
            (max ((r.y - oy) / Real.sin θ) ((r.y + r.height - oy) / Real.sin θ)) ∧
        0 < max (max 0 (min ((r.x - ox) / Real.cos θ) ((r.x + r.width - ox) / Real.cos θ)))
            (min ((r.y - oy) / Real.sin θ) ((r.y + r.height - oy) / Real.sin θ))
      then some (max (max 0 (min ((r.x - ox) / Real.cos θ) ((r.x + r.width - ox) / Real.cos θ)))
            (min ((r.y - oy) / Real.sin θ) ((r.y + r.height - oy) / Real.sin θ)))
      else none := by
  simp only [distanceToRectangle, if_pos hdx, if_pos hdy]

lemma hit_coord (o d a : ℝ) (hd : d ≠ 0) : o + d * ((a - o) / d) = a := by
  field_simp

/-- A parameter between the two slab crossings lands between the two slab
planes: interpolation along one axis. -/
lemma slab_bounds (o d a b t : ℝ) (hd : d ≠ 0)
    (h1 : min ((a - o) / d) ((b - o) / d) ≤ t)
    (h2 : t ≤ max ((a - o) / d) ((b - o) / d)) :
    min a b ≤ o + d * t ∧ o + d * t ≤ max a b := by
  have hua : (a - o) / d * d = a - o := div_mul_cancel₀ _ hd
  have hub : (b - o) / d * d = b - o := div_mul_cancel₀ _ hd
  rcases hd.lt_or_lt with hneg | hpos
  · rcases le_total ((a - o) / d) ((b - o) / d) with hab | hab
    · rw [min_eq_left hab] at h1
      rw [max_eq_right hab] at h2
      have k1 := mul_le_mul_of_nonpos_right h1 hneg.le
      have k2 := mul_le_mul_of_nonpos_right h2 hneg.le
      exact ⟨le_trans (min_le_right a b) (by nlinarith),
        le_trans (by nlinarith) (le_max_left a b)⟩
    · rw [min_eq_right hab] at h1
      rw [max_eq_left hab] at h2
      have k1 := mul_le_mul_of_nonpos_right h1 hneg.le
      have k2 := mul_le_mul_of_nonpos_right h2 hneg.le
      exact ⟨le_trans (min_le_left a b) (by nlinarith),
        le_trans (by nlinarith) (le_max_right a b)⟩
  · rcases le_total ((a - o) / d) ((b - o) / d) with hab | hab
    · rw [min_eq_left hab] at h1
      rw [max_eq_right hab] at h2
      have k1 := mul_le_mul_of_nonneg_right h1 hpos.le
      have k2 := mul_le_mul_of_nonneg_right h2 hpos.le
      exact ⟨le_trans (min_le_left a b) (by nlinarith),
        le_trans (by nlinarith) (le_max_right a b)⟩
    · rw [min_eq_right hab] at h1
      rw [max_eq_left hab] at h2
      have k1 := mul_le_mul_of_nonneg_right h1 hpos.le
      have k2 := mul_le_mul_of_nonneg_right h2 hpos.le
      exact ⟨le_trans (min_le_right a b) (by nlinarith),
        le_trans (by nlinarith) (le_max_left a b)⟩

/-- The two-slab result, when positive and within both slabs' far crossings,
lands exactly on the rectangle's boundary. -/
lemma slab_result_on_boundary (ox oy dx dy maxLen t : ℝ) (r : Rect)
    (hdx0 : dx ≠ 0) (hdy0 : dy ≠ 0)
    (hle : max (max 0 (min ((r.x - ox) / dx) ((r.x + r.width - ox) / dx)))
        (min ((r.y - oy) / dy) ((r.y + r.height - oy) / dy)) ≤
      min (min maxLen (max ((r.x - ox) / dx) ((r.x + r.width - ox) / dx)))
        (max ((r.y - oy) / dy) ((r.y + r.height - oy) / dy)))
    (hpos : 0 < max (max 0 (min ((r.x - ox) / dx) ((r.x + r.width - ox) / dx)))
        (min ((r.y - oy) / dy) ((r.y + r.height - oy) / dy)))
    (htdef : t = max (max 0 (min ((r.x - ox) / dx) ((r.x + r.width - ox) / dx)))
        (min ((r.y - oy) / dy) ((r.y + r.height - oy) / dy))) :
    ((ox + dx * t = r.x ∨ ox + dx * t = r.x + r.width) ∧
      min r.y (r.y + r.height) ≤ oy + dy * t ∧ oy + dy * t ≤ max r.y (r.y + r.height)) ∨
    ((oy + dy * t = r.y ∨ oy + dy * t = r.y + r.height) ∧
      min r.x (r.x + r.width) ≤ ox + dx * t ∧ ox + dx * t ≤ max r.x (r.x + r.width)) := by
  set tx1 := (r.x - ox) / dx with htx1
  set tx2 := (r.x + r.width - ox) / dx with htx2
  set ty1 := (r.y - oy) / dy with hty1
  set ty2 := (r.y + r.height - oy) / dy with hty2
  have hpt : 0 < t := by rw [htdef]; exact hpos
  have hleMx : t ≤ max tx1 tx2 := by
    rw [htdef]
    exact le_trans hle (le_trans (min_le_left _ _) (min_le_right _ _))
  have hleMy : t ≤ max ty1 ty2 := by
    rw [htdef]
    exact le_trans hle (min_le_right _ _)
  have hgeMx : min tx1 tx2 ≤ t := by
    rw [htdef]
    exact le_trans (le_max_right 0 _) (le_max_left _ _)
  have hgeMy : min ty1 ty2 ≤ t := by
    rw [htdef]
    exact le_max_right _ _
  have hxbounds : min r.x (r.x + r.width) ≤ ox + dx * t ∧
      ox + dx * t ≤ max r.x (r.x + r.width) := by
    apply slab_bounds ox dx r.x (r.x + r.width) t hdx0
    · rw [← htx1, ← htx2]; exact hgeMx
    · rw [← htx1, ← htx2]; exact hleMx
  have hybounds : min r.y (r.y + r.height) ≤ oy + dy * t ∧
      oy + dy * t ≤ max r.y (r.y + r.height) := by
    apply slab_bounds oy dy r.y (r.y + r.height) t hdy0
    · rw [← hty1, ← hty2]; exact hgeMy
    · rw [← hty1, ← hty2]; exact hleMy
  rcases max_choice (max 0 (min tx1 tx2)) (min ty1 ty2) with hc | hc
  · have ht' : t = max 0 (min tx1 tx2) := by rw [htdef, hc]
    rcases max_choice 0 (min tx1 tx2) with hc2 | hc2
    · exfalso
      have hz : t = 0 := by rw [ht', hc2]
      rw [hz] at hpt
      exact lt_irrefl 0 hpt
    · have htx : t = min tx1 tx2 := by rw [ht', hc2]
      left
      refine ⟨?_, hybounds⟩
      rcases min_choice tx1 tx2 with hmc | hmc
      · left
        rw [htx, hmc, htx1]
        exact hit_coord ox dx r.x hdx0
      · right
        rw [htx, hmc, htx2]
        exact hit_coord ox dx (r.x + r.width) hdx0
  · have hty : t = min ty1 ty2 := by rw [htdef, hc]
    right
    refine ⟨?_, hxbounds⟩
    rcases min_choice ty1 ty2 with hmc | hmc
    · left
      rw [hty, hmc, hty1]
      exact hit_coord oy dy r.y hdy0
    · right
      rw [hty, hmc, hty2]
      exact hit_coord oy dy (r.y + r.height) hdy0

/-- Claim C2 counterexample: the claim includes rays whose direction component
along one axis is below the negligibility epsilon. For the vertical ray from
(0,0) at angle π/2 the x-slab of the rectangle [1000,1010]×[5,10] is skipped,
the routine returns t = 5, and the resulting point (0,5) is nowhere near the
rectangle's boundary (off by at least 900 in x). -/
theorem C2_skip_axis_counterexample :
    distanceToRectangle 0 0 (Real.pi / 2) 300 ⟨1000, 5, 10, 5⟩ = some 5 ∧
    ¬ ∃ q : ℝ × ℝ, onRectBoundary ⟨1000, 5, 10, 5⟩ q ∧
      |(pointAt 0 0 (Real.pi / 2) 5).1 - q.1| ≤ 100 ∧
      |(pointAt 0 0 (Real.pi / 2) 5).2 - q.2| ≤ 100 := by
  constructor
  · unfold distanceToRectangle
    simp only [Real.cos_pi_div_two, Real.sin_pi_div_two]
    norm_num
  · rintro ⟨q, hq, hx, _⟩
    have h1 : 1000 ≤ q.1 := by
      unfold onRectBoundary at hq
      rcases hq with ⟨h, _⟩ | ⟨_, h2, _⟩
      · rcases h with h | h
        · rw [h]
        · rw [h]; norm_num
      · rw [show min (1000 : ℝ) (1000 + 10) = 1000 by norm_num] at h2
        exact h2
    have hpx : (pointAt 0 0 (Real.pi / 2) 5).1 = 0 := by
      unfold pointAt
      simp [Real.cos_pi_div_two]
    rw [hpx] at hx
    have := abs_le.mp hx
    linarith [this.1, this.2]

/-- Claim C2 as amended: when BOTH direction components exceed the
negligibility epsilon (both slab tests run), any positive distance returned
by `distanceToRectangle` puts `origin + t·(cosθ, sinθ)` exactly on the
rectangle's boundary. When one axis's slab test is skipped, only the other
axis's coordinate is constrained and the point can be arbitrarily far from
the rectangle (see the counterexample). -/
theorem C2_rect_boundary_amended (ox oy θ maxLen t : ℝ) (r : Rect)
    (hdx : 0.001 < |Real.cos θ|) (hdy : 0.001 < |Real.sin θ|)
    (ht : distanceToRectangle ox oy θ maxLen r = some t) :
    0 < t ∧ onRectBoundary r (pointAt ox oy θ t) := by
  have hdx0 : Real.cos θ ≠ 0 := by
    intro h
    rw [h, abs_zero] at hdx
    norm_num at hdx
  have hdy0 : Real.sin θ ≠ 0 := by
    intro h
    rw [h, abs_zero] at hdy
    norm_num at hdy
  rw [distanceToRectangle_active ox oy θ maxLen r hdx hdy] at ht
  split at ht
  next hcond =>
    have htdef : t = max (max 0 (min ((r.x - ox) / Real.cos θ)
          ((r.x + r.width - ox) / Real.cos θ)))
        (min ((r.y - oy) / Real.sin θ) ((r.y + r.height - oy) / Real.sin θ)) :=
      (Option.some.inj ht).symm
    refine ⟨by rw [htdef]; exact hcond.2, ?_⟩
    have hb := slab_result_on_boundary ox oy (Real.cos θ) (Real.sin θ) maxLen t r
      hdx0 hdy0 hcond.1 hcond.2 htdef
    unfold onRectBoundary pointAt
    exact hb
  next hcond =>
    exact absurd ht (by simp)

/-- Witness for the amended C2 at a concrete input: the angle arcsin(4/5)
has direction (3/5, 4/5); the ray from the origin reaches the rectangle
[3,6]×[4,8] at t = 5, landing on the corner (3,4) of its boundary. -/
theorem C2_rect_boundary_amended_witness :
    0 < (5 : ℝ) ∧ onRectBoundary ⟨3, 4, 3, 4⟩ (pointAt 0 0 (Real.arcsin (4 / 5)) 5) := by
  have hcos : Real.cos (Real.arcsin (4 / 5)) = 3 / 5 := by
    rw [Real.cos_arcsin]
    rw [show (1 : ℝ) - (4 / 5) ^ 2 = (3 / 5) ^ 2 by norm_num]
    exact Real.sqrt_sq (by norm_num)
  have hsin : Real.sin (Real.arcsin (4 / 5)) = 4 / 5 :=
    Real.sin_arcsin (by norm_num) (by norm_num)
  have habsc : 0.001 < |Real.cos (Real.arcsin (4 / 5))| := by
    rw [hcos, abs_of_pos (by norm_num : (0 : ℝ) < 3 / 5)]
    norm_num
  have habss : 0.001 < |Real.sin (Real.arcsin (4 / 5))| := by
    rw [hsin, abs_of_pos (by norm_num : (0 : ℝ) < 4 / 5)]
    norm_num
  refine C2_rect_boundary_amended 0 0 (Real.arcsin (4 / 5)) 100 5 ⟨3, 4, 3, 4⟩ habsc habss ?_
  rw [distanceToRectangle_active 0 0 (Real.arcsin (4 / 5)) 100 ⟨3, 4, 3, 4⟩ habsc habss]
  rw [hcos, hsin]
  norm_num

lemma rectA_eval : distanceToRectangle 0 0 0 500 ⟨100, 0, 50, 10⟩ = some 100 := by
  unfold distanceToRectangle
  simp only [Real.cos_zero, Real.sin_zero]
  norm_num [min_def, max_def]

lemma rectB_eval : distanceToRectangle 0 0 0 500 ⟨95, 0, 2, 10⟩ = some 95 := by
  unfold distanceToRectangle
  simp only [Real.cos_zero, Real.sin_zero]
  norm_num [min_def, max_def]

lemma if_some_eq {α : Type} {c : Prop} [Decidable c] {x d : α}
    (h : (if c then some x else none) = some d) : c ∧ x = d := by
  split at h
  next hc => exact ⟨hc, Option.some.inj h⟩
  next => exact absurd h (by simp)

lemma if_opt_eq {α : Type} {c : Prop} [Decidable c] {o : Option α} {d : α}
    (h : (if c then o else none) = some d) : o = some d := by
  split at h
  next => exact h
  next => exact absurd h (by simp)

/-- Any distance the per-obstacle routines report is strictly positive: the
rectangle routine returns `tMin` only under `tMin > 0`, the circle routine
returns `t1` only under `t1 > 0`. -/
lemma obstacleDistance_pos (ox oy angle maxLen : ℝ) (ob : Obstacle) (d : ℝ)
    (h : obstacleDistance ox oy angle maxLen ob = some d) : 0 < d := by
  cases ob with
  | building r =>
    unfold obstacleDistance at h
    simp only [distanceToRectangle] at h
    obtain ⟨⟨-, hpos⟩, hx⟩ := if_some_eq h
    rw [← hx]
    exact hpos
  | tree c =>
    unfold obstacleDistance at h
    simp only [distanceToCircle] at h
    obtain ⟨hpos, hx⟩ := if_some_eq (if_opt_eq h)
    rw [← hx]
    exact hpos

/-- One iteration of the `Ripple.findObstacleDistance` loop as a function of
the reported per-obstacle distance. -/
noncomputable def distStep (minD : ℝ) (od : Option ℝ) : ℝ :=
  match od with
  | none => minD
  | some d => if d ≠ 0 ∧ d < minD then d * 0.9 else minD

lemma distStep_none (m : ℝ) : distStep m none = m := rfl

lemma distStep_some (m d : ℝ) :
    distStep m (some d) = if d ≠ 0 ∧ d < m then d * 0.9 else m := rfl

lemma findObstacleDistance_eq_fold (ox oy angle maxR : ℝ) (obs : List Obstacle) :
    findObstacleDistance ox oy angle maxR obs =
      (obs.map (obstacleDistance ox oy angle maxR)).foldl distStep maxR := by
  unfold findObstacleDistance
  rw [List.foldl_map]
  rfl

lemma distFold_no_hit : ∀ (l : List (Option ℝ)) (m : ℝ),
    (∀ d : ℝ, some d ∈ l → m ≤ d) → l.foldl distStep m = m := by
  intro l
  induction l with
  | nil => intro m _; rfl
  | cons od l ih =>
    intro m h
    simp only [List.foldl_cons]
    rcases od with _ | d
    · exact ih m fun d hd => h d (List.mem_cons_of_mem _ hd)
    · have hge : m ≤ d := h d (List.mem_cons_self _ _)
      have hstep : distStep m (some d) = m := by
        rw [distStep_some, if_neg]
        rintro ⟨-, hlt⟩
        exact absurd hge (not_le.mpr hlt)
      rw [hstep]
      exact ih m fun d hd => h d (List.mem_cons_of_mem _ hd)

/-- The reduction loop's result, when some obstacle reports a distance below
the bound: it lies between 0.9 times the minimum reported distance and the
minimum reported distance itself. -/
lemma distFold_bounds : ∀ (l : List (Option ℝ)) (m dmin : ℝ),
    (∀ d : ℝ, some d ∈ l → 0 < d) → some dmin ∈ l →
    (∀ d : ℝ, some d ∈ l → dmin ≤ d) → dmin < m →
    0.9 * dmin ≤ l.foldl distStep m ∧ l.foldl distStep m ≤ dmin := by
  intro l
  induction l with
  | nil =>
    intro m dmin _ hmem _ _
    exact absurd hmem (List.not_mem_nil _)
  | cons od l ih =>
    intro m dmin hpos hmem hlb hlt
    simp only [List.foldl_cons]
    rcases od with _ | d
    · have hmem' : some dmin ∈ l := by
        rcases List.mem_cons.mp hmem with h | h
        · exact absurd h (by simp)
        · exact h
      exact ih m dmin (fun d' hd' => hpos d' (List.mem_cons_of_mem _ hd')) hmem'
        (fun d' hd' => hlb d' (List.mem_cons_of_mem _ hd')) hlt
    · have hdpos : 0 < d := hpos d (List.mem_cons_self _ _)
      have hdlb : dmin ≤ d := hlb d (List.mem_cons_self _ _)
      by_cases hg : d ≠ 0 ∧ d < m
      · have hstep : distStep m (some d) = d * 0.9 := by
          rw [distStep_some, if_pos hg]
        rw [hstep]
        rcases List.mem_cons.mp hmem with hEq | hmem'
        · have hdd : dmin = d := by injection hEq
          have hnone : l.foldl distStep (d * 0.9) = d * 0.9 := by
            apply distFold_no_hit
            intro d' hd'
            have hlb' := hlb d' (List.mem_cons_of_mem _ hd')
            rw [hdd] at hlb'
            nlinarith
          rw [hnone]
          constructor
          · rw [hdd]; nlinarith
          · rw [hdd]; nlinarith
        · by_cases hcase : dmin < d * 0.9
          · exact ih (d * 0.9) dmin (fun d' hd' => hpos d' (List.mem_cons_of_mem _ hd'))
              hmem' (fun d' hd' => hlb d' (List.mem_cons_of_mem _ hd')) hcase
          · push_neg at hcase
            have hnone : l.foldl distStep (d * 0.9) = d * 0.9 := by
              apply distFold_no_hit
              intro d' hd'
              exact le_trans hcase (hlb d' (List.mem_cons_of_mem _ hd'))
            rw [hnone]
            exact ⟨by nlinarith, hcase⟩
      · have hstep : distStep m (some d) = m := by
          rw [distStep_some, if_neg hg]
        rw [hstep]
        have hmle : m ≤ d := by
          rcases not_and_or.mp hg with h | h
          · exact absurd (ne_of_gt hdpos) h
          · exact not_lt.mp h
        have hmem' : some dmin ∈ l := by
          rcases List.mem_cons.mp hmem with hEq | h
          · exfalso
            have hdd : dmin = d := by injection hEq
            rw [hdd] at hlt
            exact absurd hlt (not_lt.mpr hmle)
          · exact h
        exact ih m dmin (fun d' hd' => hpos d' (List.mem_cons_of_mem _ hd')) hmem'
          (fun d' hd' => hlb d' (List.mem_cons_of_mem _ hd')) hlt

/-- Claim C4 counterexample: the loop applies the 0.9 shrink each time a
closer obstacle is accepted and compares raw distances against the shrunk
running minimum, so with obstacles at distances 100 and 95 the result is 90
in one order (95 loses to the shrunk 90) and 85.5 in the other, and neither
order-independence nor "0.9 times the minimum" (85.5) holds for the first. -/
theorem C4_order_dependence_counterexample :
    findObstacleDistance 0 0 0 500
      [Obstacle.building ⟨100, 0, 50, 10⟩, Obstacle.building ⟨95, 0, 2, 10⟩] = 90 ∧
    findObstacleDistance 0 0 0 500
      [Obstacle.building ⟨95, 0, 2, 10⟩, Obstacle.building ⟨100, 0, 50, 10⟩] = 85.5 ∧
    (90 : ℝ) ≠ 0.9 * 95 := by
  refine ⟨?_, ?_, by norm_num⟩
  · simp only [findObstacleDistance, List.foldl_cons, List.foldl_nil, findStep,
      obstacleDistance, rectA_eval, rectB_eval]
    norm_num
  · simp only [findObstacleDistance, List.foldl_cons, List.foldl_nil, findStep,
      obstacleDistance, rectA_eval, rectB_eval]
    norm_num

/-- Claim C4 as amended, both branches. When no obstacle reports a distance
below the caller's maximum (in particular when no obstacle reports any
distance at all) the reduction returns exactly that maximum. When some
obstacle does, the result lies between 0.9·dmin and dmin, where dmin is the
minimum reported per-obstacle distance — but it is not in general 0.9·dmin
itself, and the exact value can depend on the order in which the obstacles
are evaluated (see the counterexample). -/
theorem C4_shrink_bounds (ox oy angle M : ℝ) (obs : List Obstacle) :
    ((∀ d : ℝ, some d ∈ obs.map (obstacleDistance ox oy angle M) → M ≤ d) →
      findObstacleDistance ox oy angle M obs = M) ∧
    (∀ dmin : ℝ, some dmin ∈ obs.map (obstacleDistance ox oy angle M) →
      (∀ d : ℝ, some d ∈ obs.map (obstacleDistance ox oy angle M) → dmin ≤ d) →
      dmin < M →
      0.9 * dmin ≤ findObstacleDistance ox oy angle M obs ∧
      findObstacleDistance ox oy angle M obs ≤ dmin) := by
  constructor
  · intro hnone
    rw [findObstacleDistance_eq_fold]
    exact distFold_no_hit _ M hnone
  · intro dmin hmem hmin hlt
    rw [findObstacleDistance_eq_fold]
    refine distFold_bounds _ M dmin ?_ hmem hmin hlt
    intro d hd
    rcases List.mem_map.mp hd with ⟨ob, -, hob⟩
    exact obstacleDistance_pos ox oy angle M ob d hob

lemma mapAB_eval :
    ([Obstacle.building ⟨100, 0, 50, 10⟩, Obstacle.building ⟨95, 0, 2, 10⟩]).map
      (obstacleDistance 0 0 0 500) = [some 100, some 95] := by
  simp only [List.map_cons, List.map_nil, obstacleDistance, rectA_eval, rectB_eval]

/-- With the maximum trimmed to 50 the far slab crossing (150) clips `tMax`
to 50 below `tMin` = 100, so the building at distance 100 reports no hit. -/
lemma rectA_short_eval : distanceToRectangle 0 0 0 50 ⟨100, 0, 50, 10⟩ = none := by
  unfold distanceToRectangle
  simp only [Real.cos_zero, Real.sin_zero]
  norm_num [min_def, max_def]

/-- Witness for the amended C4 at concrete inputs, one per branch: with
maximum 50 the single building reports no hit and the result is exactly 50;
with maximum 500 and obstacles at distances 100 and 95 the result lies
within [0.9·95, 95]. -/
theorem C4_shrink_bounds_witness :
    findObstacleDistance 0 0 0 50 [Obstacle.building ⟨100, 0, 50, 10⟩] = 50 ∧
    (0.9 * 95 ≤ findObstacleDistance 0 0 0 500
       [Obstacle.building ⟨100, 0, 50, 10⟩, Obstacle.building ⟨95, 0, 2, 10⟩] ∧
     findObstacleDistance 0 0 0 500
       [Obstacle.building ⟨100, 0, 50, 10⟩, Obstacle.building ⟨95, 0, 2, 10⟩] ≤ 95) := by
  constructor
  · refine (C4_shrink_bounds 0 0 0 50 [Obstacle.building ⟨100, 0, 50, 10⟩]).1 ?_
    intro d hd
    simp only [List.map_cons, List.map_nil, obstacleDistance, rectA_short_eval] at hd
    simp at hd
  · refine (C4_shrink_bounds 0 0 0 500
      [Obstacle.building ⟨100, 0, 50, 10⟩, Obstacle.building ⟨95, 0, 2, 10⟩]).2 95 ?_ ?_
      (by norm_num)
    · rw [mapAB_eval]
      simp
    · rw [mapAB_eval]
      intro d hd
      rcases List.mem_cons.mp hd with h | h
      · norm_num [Option.some.inj h]
      · rcases List.mem_cons.mp h with h2 | h2
        · norm_num [Option.some.inj h2]
        · exact absurd h2 (List.not_mem_nil _)

/-- Claim C5 counterexample: on the identical input (origin (0,0), angle 0,
one building at distance 100, maximum 500) the ray caster reports hit
distance 100 while the ripple emitter's reduction reports 90: the ripple
version applies the 0.9 shrink, the ray version does not. -/
theorem C5_shrink_divergence_counterexample :
    (checkObstacles 0 0 0 500 [Obstacle.building ⟨100, 0, 50, 10⟩]).hitDistance = 100 ∧
    findObstacleDistance 0 0 0 500 [Obstacle.building ⟨100, 0, 50, 10⟩] = 90 ∧
    (100 : ℝ) ≠ 90 := by
  refine ⟨?_, ?_, by norm_num⟩
  · simp only [checkObstacles, List.foldl_cons, List.foldl_nil, checkStep,
      obstacleDistance, rectA_eval]
    norm_num
  · simp only [findObstacleDistance, List.foldl_cons, List.foldl_nil, findStep,
      obstacleDistance, rectA_eval]
    norm_num

/-- Claim C5 as amended: on identical single-obstacle inputs the two routines
run the same per-obstacle intersection code and agree exactly up to the
ripple emitter's 0.9 shrink: both return the maximum when the obstacle does
not register, and the ripple distance is 0.9 times the ray's hit distance
when it does. -/
theorem C5_single_obstacle_relation (ox oy angle M : ℝ) (ob : Obstacle) :
    (¬ (checkObstacles ox oy angle M [ob]).blocked →
      findObstacleDistance ox oy angle M [ob] =
        (checkObstacles ox oy angle M [ob]).hitDistance) ∧
    ((checkObstacles ox oy angle M [ob]).blocked →
      findObstacleDistance ox oy angle M [ob] =
        0.9 * (checkObstacles ox oy angle M [ob]).hitDistance) := by
  have hc : checkObstacles ox oy angle M [ob] = checkStep ox oy angle M ⟨M, False⟩ ob := by
    simp [checkObstacles]
  have hf : findObstacleDistance ox oy angle M [ob] = findStep ox oy angle M M ob := by
    simp [findObstacleDistance]
  rw [hc, hf]
  rcases hob : obstacleDistance ox oy angle M ob with _ | d
  · have h1 : checkStep ox oy angle M ⟨M, False⟩ ob = ⟨M, False⟩ := by simp [checkStep, hob]
    have h2 : findStep ox oy angle M M ob = M := by simp [findStep, hob]
    rw [h1, h2]
    exact ⟨fun _ => rfl, fun h => h.elim⟩
  · by_cases hg : d ≠ 0 ∧ d < M
    · have h1 : checkStep ox oy angle M ⟨M, False⟩ ob = ⟨d, True⟩ := by
        simp only [checkStep, hob]
        rw [if_pos hg]
      have h2 : findStep ox oy angle M M ob = d * 0.9 := by
        simp only [findStep, hob]
        rw [if_pos hg]
      rw [h1, h2]
      exact ⟨fun h => (h trivial).elim, fun _ => mul_comm d 0.9⟩
    · have h1 : checkStep ox oy angle M ⟨M, False⟩ ob = ⟨M, False⟩ := by
        simp only [checkStep, hob]
        rw [if_neg hg]
      have h2 : findStep ox oy angle M M ob = M := by
        simp only [findStep, hob]
        rw [if_neg hg]
      rw [h1, h2]
      exact ⟨fun _ => rfl, fun h => h.elim⟩

/-- The mutable per-wave state of a `Ripple` (src/ripple.js:286-295): current
radius, maximum radius, opacity, fixed speed. -/
structure RippleState where
  radius : ℝ
  maxRadius : ℝ
  opacity : ℝ
  speed : ℝ

/-- A freshly constructed `Ripple(x, y)`: radius 0, maximum radius
`min(canvas.width, canvas.height) * 0.8`, opacity 1, speed 1.5. -/
noncomputable def newRipple (w h : ℝ) : RippleState :=
  ⟨0, min w h * 0.8, 1, 1.5⟩

/-- `MAX_CONCURRENT_RIPPLES` (src/ripple.js:73). -/
def MAX_CONCURRENT_RIPPLES : ℕ := 5

/-- `createRipple` (src/ripple.js:539-543): push a new ripple only while the
pool is below the configured bound. -/
noncomputable def createRipple (w h : ℝ) (pool : List RippleState) : List RippleState :=
  if pool.length < MAX_CONCURRENT_RIPPLES then pool ++ [newRipple w h] else pool

/-- `Ripple.update` (src/ripple.js:385-390): advance the radius by the speed
and recompute the opacity from the new radius. -/
noncomputable def rippleUpdate (s : RippleState) : RippleState :=
  ⟨s.radius + s.speed, s.maxRadius, max 0 (1 - (s.radius + s.speed) / s.maxRadius), s.speed⟩

/-- The alive test `Ripple.update` returns, on the post-update state:
`radius < maxRadius && opacity > 0.01`. -/
def rippleStillAlive (s : RippleState) : Prop :=
  s.radius < s.maxRadius ∧ 0.01 < s.opacity

/-- The removal pass of `updateRipples` (src/ripple.js:994-999): every wave is
advanced and the no-longer-alive ones are dropped. -/
noncomputable def updateRipplesPool (pool : List RippleState) : List RippleState :=
  (pool.map rippleUpdate).filter fun s => decide (rippleStillAlive s)

/-- The two operations the animation driver performs on the ripple pool. -/
inductive RippleOp where
  | spawn
  | advance

noncomputable def applyOp (w h : ℝ) (pool : List RippleState) : RippleOp → List RippleState
  | .spawn => createRipple w h pool
  | .advance => updateRipplesPool pool

/-- The pool produced by a sequence of spawn/advance operations from the
initial empty pool. -/
noncomputable def runOps (w h : ℝ) (ops : List RippleOp) : List RippleState :=
  ops.foldl (applyOp w h) []

/-- Claim C6: a spawn while the pool already holds the configured maximum is
a no-op, and every sequence of spawn/advance operations keeps the pool within
the configured bound. -/
theorem C6_pool_bound (w h : ℝ) (pool : List RippleState) (ops : List RippleOp)
    (hfull : MAX_CONCURRENT_RIPPLES ≤ pool.length) :
    createRipple w h pool = pool ∧
    (runOps w h ops).length ≤ MAX_CONCURRENT_RIPPLES := by
  constructor
  · unfold createRipple
    rw [if_neg (not_lt.mpr hfull)]
  · have key : ∀ (l : List RippleOp) (p : List RippleState),
        p.length ≤ MAX_CONCURRENT_RIPPLES →
        (l.foldl (applyOp w h) p).length ≤ MAX_CONCURRENT_RIPPLES := by
      intro l
      induction l with
      | nil => intro p hp; exact hp
      | cons op l ih =>
        intro p hp
        simp only [List.foldl_cons]
        apply ih
        cases op with
        | spawn =>
          show (createRipple w h p).length ≤ MAX_CONCURRENT_RIPPLES
          unfold createRipple
          split
          next hlt =>
            rw [List.length_append]
            simpa using hlt
          next => exact hp
        | advance =>
          show (updateRipplesPool p).length ≤ MAX_CONCURRENT_RIPPLES
          unfold updateRipplesPool
          calc ((p.map rippleUpdate).filter fun s => decide (rippleStillAlive s)).length ≤
              (p.map rippleUpdate).length := List.length_filter_le _ _
            _ = p.length := List.length_map _ _
            _ ≤ MAX_CONCURRENT_RIPPLES := hp
    exact key ops [] (by simp)

/-- Witness for C6 at a concrete input: a full pool of five fresh ripples is
left unchanged by a spawn, and a short operation sequence stays in bounds. -/
theorem C6_pool_bound_witness :
    createRipple 800 600 (List.replicate 5 (newRipple 800 600)) =
      List.replicate 5 (newRipple 800 600) ∧
    (runOps 800 600 [RippleOp.spawn, RippleOp.advance]).length ≤ MAX_CONCURRENT_RIPPLES :=
  C6_pool_bound 800 600 (List.replicate 5 (newRipple 800 600))
    [RippleOp.spawn, RippleOp.advance]
    (by simp [MAX_CONCURRENT_RIPPLES])

lemma rippleUpdate_iterate (s : RippleState) : ∀ n : ℕ,
    (rippleUpdate^[n] s).radius = s.radius + n * s.speed ∧
    (rippleUpdate^[n] s).maxRadius = s.maxRadius ∧
    (rippleUpdate^[n] s).speed = s.speed := by
  intro n
  induction n with
  | zero => simp
  | succ n ih =>
    rw [Function.iterate_succ_apply']
    refine ⟨?_, ih.2.1, ih.2.2⟩
    show (rippleUpdate^[n] s).radius + (rippleUpdate^[n] s).speed = s.radius + (n + 1 : ℕ) * s.speed
    rw [ih.1, ih.2.2]
    push_cast
    ring

/-- Claim C7: a wave with positive maximum radius and positive speed dies in
finitely many `update` steps, and an `update` from any state whose radius
already exceeds its maximum never reports the wave alive. -/
theorem C7_ripple_lifecycle (s : RippleState) (hspeed : 0 < s.speed)
    (_hmax : 0 < s.maxRadius) (_hr : s.radius = 0) (_hop : s.opacity = 1) :
    (∃ n : ℕ, ¬ rippleStillAlive (rippleUpdate^[n] s)) ∧
    (∀ s' : RippleState, s'.maxRadius < s'.radius → 0 ≤ s'.speed →
      ¬ rippleStillAlive (rippleUpdate s')) := by
  constructor
  · obtain ⟨n, hn⟩ := exists_nat_gt ((s.maxRadius - s.radius) / s.speed)
    refine ⟨n, fun halive => ?_⟩
    obtain ⟨hrad, -⟩ := halive
    rw [(rippleUpdate_iterate s n).1, (rippleUpdate_iterate s n).2.1] at hrad
    have hmul : s.maxRadius - s.radius < n * s.speed := (div_lt_iff₀ hspeed).mp hn
    linarith
  · rintro s' hgt hsp ⟨hrad, -⟩
    have hrad' : (rippleUpdate s').radius = s'.radius + s'.speed := rfl
    have hmax' : (rippleUpdate s').maxRadius = s'.maxRadius := rfl
    rw [hrad', hmax'] at hrad
    linarith

/-- Witness for C7 at a concrete input: a fresh wave of maximum radius 10 and
speed 1.5. -/
theorem C7_ripple_lifecycle_witness :
    (∃ n : ℕ, ¬ rippleStillAlive (rippleUpdate^[n] ⟨0, 10, 1, 1.5⟩)) ∧
    (∀ s' : RippleState, s'.maxRadius < s'.radius → 0 ≤ s'.speed →
      ¬ rippleStillAlive (rippleUpdate s')) :=
  C7_ripple_lifecycle ⟨0, 10, 1, 1.5⟩ (by norm_num) (by norm_num) rfl rfl

/-- A building entry of the `obstacles` array built by `initializePositions`
(src/ripple.js:99-181). -/
structure SceneRect where
  x : ℝ
  y : ℝ
  width : ℝ
  height : ℝ
  windows : Bool
  twinkle : Bool
  pf : ℝ

/-- A tree entry of the `obstacles` array. -/
structure SceneTree where
  x : ℝ
  y : ℝ
  radius : ℝ
  pf : ℝ

inductive SceneObstacle where
  | building (b : SceneRect)
  | tree (t : SceneTree)

/-- The deterministic obstacle catalog of `initializePositions`: positions
are fractions of the viewport, heights hang from the horizon at 82% of the
viewport height. -/
noncomputable def sceneObstacles (w h : ℝ) : List SceneObstacle :=
  let horizonY := h * 0.82
  [ .building ⟨w * 0.1, horizonY - h * 0.4, 60, h * 0.4, true, false, 0.02⟩,
    .building ⟨w * 0.18, horizonY - h * 0.35, 45, h * 0.35, true, false, 0.02⟩,
    .building ⟨w * 0.25, horizonY - h * 0.45, 50, h * 0.45, true, false, 0.02⟩,
    .building ⟨w * 0.4, horizonY - h * 0.25, 40, h * 0.25, true, false, 0.018⟩,
    .building ⟨w * 0.48, horizonY - h * 0.3, 35, h * 0.3, true, false, 0.018⟩,
    .tree ⟨w * 0.34, horizonY - 18, 38, 0.03⟩,
    .tree ⟨w * 0.50, horizonY - 14, 32, 0.03⟩,
    .tree ⟨w * 0.61, horizonY - 22, 44, 0.03⟩,
    .building ⟨w * 0.7, horizonY - h * 0.22, 34, h * 0.22, true, true, 0.016⟩,
    .building ⟨w * 0.75, horizonY - h * 0.15, 35, h * 0.15, true, true, 0.016⟩,
    .building ⟨w * 0.82, horizonY - h * 0.18, 25, h * 0.18, true, true, 0.016⟩ ]

/-- One decorative window rectangle of a building's precomputed pattern
(`buildWindowsPattern`, src/ripple.js:265-280). -/
structure WindowRect where
  dx : ℝ
  dy : ℝ
  w : ℝ
  h : ℝ
  phase : ℝ

/-- One internal-state transition of `seededRandom` (src/ripple.js:260-263):
`s = Math.sin(s) * 10000`; the value returned to the caller is the
fractional part of the new state. -/
noncomputable def seededNext (s : ℝ) : ℝ := Real.sin s * 10000

/-- One grid cell of `buildWindowsPattern`: on the semi-regular parity hit
one draw supplies the phase; off-parity a first draw decides (`> 0.6`)
whether to place a window, and if so a second draw supplies the phase. -/
noncomputable def windowCell (baseX baseY : ℝ) (r c : ℕ) (s : ℝ) : Option WindowRect × ℝ :=
  if (r + c) % 2 = 0 then
    let s1 := seededNext s
    (some ⟨baseX + 3 + (c : ℝ) * 15 - baseX, baseY + 5 + (r : ℝ) * 20 - baseY, 8, 12,
      Int.fract s1 * Real.pi * 2⟩, s1)
  else
    let s1 := seededNext s
    if 0.6 < Int.fract s1 then
      let s2 := seededNext s1
      (some ⟨baseX + 3 + (c : ℝ) * 15 - baseX, baseY + 5 + (r : ℝ) * 20 - baseY, 8, 12,
        Int.fract s2 * Real.pi * 2⟩, s2)
    else (none, s1)

/-- `buildWindowsPattern(ob)` (src/ripple.js:265-280): a seeded PRNG keyed on
`baseX + baseY + width` drives the window grid of `rows × cols` cells, with
rows running from 1. -/
noncomputable def buildWindowsPattern (baseX baseY width height : ℝ) : List WindowRect :=
  let rows := (max 1 ⌊height / 20⌋).toNat
  let cols := (max 1 ⌊width / 15⌋).toNat
  let s0 := Real.sin (baseX + baseY + width) * 10000
  ((List.range' 1 (rows - 1)).foldl (fun acc r =>
    (List.range cols).foldl (fun acc2 c =>
      let step := windowCell baseX baseY r c acc2.2
      (acc2.1 ++ step.1.toList, step.2)) acc)
    (([] : List WindowRect), s0)).1

/-- A foreground pedestrian, seeded from three `Math.random()` draws
(src/ripple.js:220-231). -/
structure Pedestrian where
  t : ℝ
  speed : ℝ
  radius : ℝ

/-- A cyclist, seeded from two `Math.random()` draws (src/ripple.js:250-256). -/
structure Cyclist where
  t : ℝ
  speed : ℝ

/-- The state `initializePositions` rebuilds: the obstacle catalog, the
per-obstacle window patterns (from the position-keyed seeded PRNG), and the
pedestrians/cyclists seeded from the ambient `Math.random()` stream. -/
structure Scene where
  obstacles : List SceneObstacle
  windowsPatterns : List (List WindowRect)
  pedestrians : List Pedestrian
  cyclists : List Cyclist

/-- The window pattern attached to each obstacle: buildings with `windows`
get `buildWindowsPattern` keyed on their base position, other obstacles none. -/
noncomputable def scenePattern : SceneObstacle → List WindowRect
  | .building b => if b.windows then buildWindowsPattern b.x b.y b.width b.height else []
  | .tree _ => []

/-- `initializePositions` (src/ripple.js:93-257), with the `Math.random()`
draws consumed by pedestrian and cyclist seeding made explicit as a stream:
10 pedestrians drawing position, speed and radius, then 4 cyclists drawing
position and speed. The obstacles and their window patterns consume no draw
from the stream. -/
noncomputable def initializePositions (w h : ℝ) (rng : ℕ → ℝ) : Scene :=
  let obstacles := sceneObstacles w h
  ⟨obstacles,
    obstacles.map scenePattern,
    (List.range 10).map fun i =>
      ⟨rng (3 * i), 0.02 + rng (3 * i + 1) * 0.03, 4 + rng (3 * i + 2) * 2⟩,
    (List.range 4).map fun i =>
      ⟨rng (30 + 2 * i), 0.05 + rng (30 + 2 * i + 1) * 0.04⟩⟩

/-- Claim C9: two runs of scene construction over the same viewport agree on
the obstacle list and on every building's window pattern whatever the
ambient randomness does: placement is deterministic in the viewport and the
window patterns use only the position-keyed seeded generator. -/
theorem C9_scene_deterministic (w h : ℝ) (rng rng' : ℕ → ℝ) :
    (initializePositions w h rng).obstacles = (initializePositions w h rng').obstacles ∧
    (initializePositions w h rng).windowsPatterns =
      (initializePositions w h rng').windowsPatterns :=
  ⟨rfl, rfl⟩

end SlimShady
